import Mathlib

/-!
Shallow embedding of
`src/gitlab-ci/src/dependencies/data_source/dummy_finding_data_source.py`.

The Python class `DummyFindingDataSource(FindingDataSource)` declares no
attributes and no `__init__`, so an object of the class carries no state; it is
embedded as a fieldless structure.  Each method is embedded as a total function
taking the object state explicitly and returning the Python result paired with
the post-call object state, wrapped in `Except String` so that a `raise` in the
body would appear as `Except.error`; none of the four bodies contains a `raise`,
a state write, or any I/O, so each embedding is a constant `Except.ok`.

The external domain types (`Finding` from `model.finding`, `User` from
`model.user`, `CommitType` from `data_source.commit_type`) are not part of the
fragment and are never inspected by the dummy implementation, so the embedding
is polymorphic in them: every definition takes them as type parameters.
-/

namespace DummyFDS

/-- Python `NoneType`: the type of the implicit `return None` of a Python
function whose body falls through (as `create_or_update_open_finding` does). -/
inductive PyNone where
  | none
  deriving DecidableEq, Repr

/-- State of a `DummyFindingDataSource` object.  The class defines no
attributes and inherits the default `__init__`, so the state is empty. -/
structure DummyFindingDataSource where
  deriving DecidableEq, Repr

/-- Embedding of `DummyFindingDataSource.get_open_finding`.  The body is
`return None`: no exception, no state change, result `None` for every
combination of the four string arguments. -/
def DummyFindingDataSource.get_open_finding (Finding : Type)
    (self : DummyFindingDataSource)
    (repository scanner dependency_id dependency_version : String) :
    Except String (Option Finding × DummyFindingDataSource) :=
  Except.ok (none, self)

/-- Embedding of `DummyFindingDataSource.commit_has_block_exception`.  The body
is `return True`: no exception, no state change, result `True` for every
commit type and commit hash. -/
def DummyFindingDataSource.commit_has_block_exception (CommitType : Type)
    (self : DummyFindingDataSource)
    (commit_type : CommitType) (commit_hash : String) :
    Except String (Bool × DummyFindingDataSource) :=
  Except.ok (true, self)

/-- Embedding of `DummyFindingDataSource.create_or_update_open_finding`.  The
body is `pass`: the function falls through and returns Python `None`, raises
nothing and changes no state. -/
def DummyFindingDataSource.create_or_update_open_finding (Finding : Type)
    (self : DummyFindingDataSource) (finding : Finding) :
    Except String (PyNone × DummyFindingDataSource) :=
  Except.ok (PyNone.none, self)

/-- Embedding of `DummyFindingDataSource.get_risk_assessor`.  The body is
`return []`: no exception, no state change, result the empty list. -/
def DummyFindingDataSource.get_risk_assessor (User : Type)
    (self : DummyFindingDataSource) :
    Except String (List User × DummyFindingDataSource) :=
  Except.ok ([], self)

/-- One call to one of the four public methods, with its arguments. -/
inductive Call (Finding CommitType : Type) where
  | get_open_finding
      (repository scanner dependency_id dependency_version : String)
  | commit_has_block_exception (commit_type : CommitType) (commit_hash : String)
  | create_or_update_open_finding (finding : Finding)
  | get_risk_assessor

/-- The value returned by one call, tagged by the method's return type. -/
inductive Result (Finding User : Type) where
  | finding_opt (value : Option Finding)
  | boolean (value : Bool)
  | py_none (value : PyNone)
  | users (value : List User)
  deriving DecidableEq

/-- Dispatch one call on an object: run the embedded method on the object
state and tag the result. -/
def step (Finding User CommitType : Type) (self : DummyFindingDataSource)
    (c : Call Finding CommitType) :
    Except String (Result Finding User × DummyFindingDataSource) :=
  match c with
  | .get_open_finding r s d v =>
      (self.get_open_finding Finding r s d v).map
        (fun p => (Result.finding_opt p.1, p.2))
  | .commit_has_block_exception t h =>
      (self.commit_has_block_exception CommitType t h).map
        (fun p => (Result.boolean p.1, p.2))
  | .create_or_update_open_finding f =>
      (self.create_or_update_open_finding Finding f).map
        (fun p => (Result.py_none p.1, p.2))
  | .get_risk_assessor =>
      (self.get_risk_assessor User).map
        (fun p => (Result.users p.1, p.2))

/-- Run a sequence of calls on an object, threading the object state and
collecting the results; a raised exception aborts the run. -/
def runTrace (Finding User CommitType : Type) :
    DummyFindingDataSource → List (Call Finding CommitType) →
    Except String (List (Result Finding User) × DummyFindingDataSource)
  | self, [] => Except.ok ([], self)
  | self, c :: rest =>
    match step Finding User CommitType self c with
    | Except.error e => Except.error e
    | Except.ok (r, s₁) =>
      match runTrace Finding User CommitType s₁ rest with
      | Except.error e => Except.error e
      | Except.ok (rs, s₂) => Except.ok (r :: rs, s₂)

/-- The fixed value each method returns, read off the four method bodies:
`None`, `True`, `None` (fall-through), `[]`. -/
def pureResult (Finding User CommitType : Type)
    (c : Call Finding CommitType) : Result Finding User :=
  match c with
  | .get_open_finding _ _ _ _ => Result.finding_opt none
  | .commit_has_block_exception _ _ => Result.boolean true
  | .create_or_update_open_finding _ => Result.py_none PyNone.none
  | .get_risk_assessor => Result.users []

/-- Heap of Python list objects holding `User` values, for reasoning about
object identity of the list returned by `get_risk_assessor`: a cell per
allocated list object, addressed by allocation index. -/
structure ListHeap (User : Type) where
  cells : List (List User)

/-- Contents of the list object at reference `r`, if allocated. -/
def ListHeap.get {User : Type} (h : ListHeap User) (r : Nat) :
    Option (List User) :=
  h.cells[r]?

/-- Mutate the list object at reference `r` in place (a no-op on an
unallocated reference). -/
def ListHeap.set {User : Type} (h : ListHeap User) (r : Nat)
    (v : List User) : ListHeap User :=
  ⟨h.cells.set r v⟩

/-- Allocation-aware embedding of `get_risk_assessor`: under CPython
semantics the list display `[]` in `return []` allocates a new empty list
object on each evaluation, so the call extends the heap with a fresh empty
cell and returns its reference. -/
def DummyFindingDataSource.get_risk_assessor_alloc {User : Type}
    (self : DummyFindingDataSource) (h : ListHeap User) :
    Nat × ListHeap User × DummyFindingDataSource :=
  (h.cells.length, ⟨h.cells ++ [[]]⟩, self)

theorem step_eq (Finding User CommitType : Type)
    (self : DummyFindingDataSource) (c : Call Finding CommitType) :
    step Finding User CommitType self c
      = Except.ok (pureResult Finding User CommitType c, self) := by
  cases c <;> rfl

theorem runTrace_pure (Finding User CommitType : Type)
    (self : DummyFindingDataSource) (trace : List (Call Finding CommitType)) :
    runTrace Finding User CommitType self trace
      = Except.ok (trace.map (pureResult Finding User CommitType), self) := by
  induction trace generalizing self with
  | nil => rfl
  | cons c rest ih => simp [runTrace, step_eq, ih]

/-- Claim C1: for every `repository`, `scanner`, `dependency_id` and
`dependency_version` string, `get_open_finding` returns `None`
(no finding found), raises nothing and changes no state, independent of the
argument values. -/
theorem C1_get_open_finding_always_none (Finding : Type)
    (self : DummyFindingDataSource)
    (repository scanner dependency_id dependency_version : String) :
    self.get_open_finding Finding
        repository scanner dependency_id dependency_version
      = Except.ok (none, self) := rfl

/-- Claim C2: for every `CommitType` value and every commit hash string,
`commit_has_block_exception` returns `True`: the block exception is always
granted. -/
theorem C2_commit_has_block_exception_always_true (CommitType : Type)
    (self : DummyFindingDataSource)
    (commit_type : CommitType) (commit_hash : String) :
    self.commit_has_block_exception CommitType commit_type commit_hash
      = Except.ok (true, self) := rfl

/-- Claim C3: for every `Finding` argument, `create_or_update_open_finding`
raises no exception and leaves the object state unchanged (the dummy has no
backing store, so the post-call state is exactly the pre-call state). -/
theorem C3_create_or_update_open_finding_no_effect (Finding : Type)
    (self : DummyFindingDataSource) (finding : Finding) :
    self.create_or_update_open_finding Finding finding
      = Except.ok (PyNone.none, self) := rfl

/-- Claim C4: after any sequence of prior calls to the four operations,
`get_risk_assessor` still returns the empty list: no users accumulate. -/
theorem C4_get_risk_assessor_empty_after_any_trace
    (Finding User CommitType : Type) (self self₁ : DummyFindingDataSource)
    (trace : List (Call Finding CommitType))
    (results : List (Result Finding User))
    (hrun : runTrace Finding User CommitType self trace
      = Except.ok (results, self₁)) :
    self₁.get_risk_assessor User = Except.ok ([], self₁) := rfl

/-- Witness for C4: a concrete two-call trace, after which
`get_risk_assessor` returns the empty list. -/
theorem C4_witness :
    runTrace Nat Nat Nat DummyFindingDataSource.mk
        [Call.commit_has_block_exception 0 "abc123", Call.get_risk_assessor]
      = Except.ok ([Result.boolean true, Result.users []],
          DummyFindingDataSource.mk)
    ∧ DummyFindingDataSource.mk.get_risk_assessor Nat
      = Except.ok ([], DummyFindingDataSource.mk) :=
  ⟨rfl, C4_get_risk_assessor_empty_after_any_trace Nat Nat Nat
    DummyFindingDataSource.mk DummyFindingDataSource.mk
    [Call.commit_has_block_exception 0 "abc123", Call.get_risk_assessor]
    [Result.boolean true, Result.users []] rfl⟩

/-- Claim C5: every one of the four operations is total: for every object
state and every call with its arguments, the call terminates with a normal
result (`Except.ok`); no error branch is reachable. -/
theorem C5_all_operations_total (Finding User CommitType : Type)
    (self : DummyFindingDataSource) (c : Call Finding CommitType) :
    ∃ r s₁, step Finding User CommitType self c = Except.ok (r, s₁) := by
  cases c <;> exact ⟨_, _, rfl⟩

/-- Claim C6: the object holds no state: any sequence of calls returns the
object in its initial state, and a later call appended to any such
sequence behaves exactly as it would on the initial state (its result is the
fixed value of the method, unchanged by the history). -/
theorem C6_stateless_history_irrelevant (Finding User CommitType : Type)
    (self : DummyFindingDataSource) (trace : List (Call Finding CommitType))
    (c : Call Finding CommitType) :
    ∃ results : List (Result Finding User),
      runTrace Finding User CommitType self trace = Except.ok (results, self)
      ∧ runTrace Finding User CommitType self (trace ++ [c])
        = Except.ok (results ++ [pureResult Finding User CommitType c],
            self) := by
  refine ⟨trace.map (pureResult Finding User CommitType),
    runTrace_pure Finding User CommitType self trace, ?_⟩
  rw [runTrace_pure]
  simp

/-- Claim C7: each operation is deterministic: the same call, with equal
arguments, issued against any two object states returns equal results and
equal post-states. -/
theorem C7_deterministic (Finding User CommitType : Type)
    (s₁ s₂ : DummyFindingDataSource) (c : Call Finding CommitType) :
    (step Finding User CommitType s₁ c).map Prod.fst
      = (step Finding User CommitType s₂ c).map Prod.fst := by
  cases s₁; cases s₂; rfl

/-- Claim C8: the operations share no mutable state, so concurrent calls
behave as their sequential interleavings: every interleaving of the calls of
any number of threads is a list of calls, and running any such list gives
each call its fixed per-call result (independent of scheduling) and leaves
the (empty) shared state unchanged. -/
theorem C8_any_interleaving_sequential (Finding User CommitType : Type)
    (self : DummyFindingDataSource)
    (interleaving : List (Call Finding CommitType)) :
    runTrace Finding User CommitType self interleaving
      = Except.ok
          (interleaving.map (pureResult Finding User CommitType), self) :=
  runTrace_pure Finding User CommitType self interleaving

/-- Claim C9: for every `Finding` argument,
`create_or_update_open_finding` returns the Python default `None` (the body
is `pass`, so the function falls through): a caller using its result always
observes `None`. -/
theorem C9_create_or_update_returns_none (Finding : Type)
    (self : DummyFindingDataSource) (finding : Finding) :
    (self.create_or_update_open_finding Finding finding).map Prod.fst
      = Except.ok PyNone.none := rfl

/-- Claim C10: each call to `get_risk_assessor` allocates and returns a
fresh empty list object: the returned reference is not a previously
allocated one and its contents are `[]`; and after mutating the list behind
any previously returned reference, a later call still returns a distinct
reference whose contents are `[]`. -/
theorem C10_fresh_empty_list (User : Type) (self : DummyFindingDataSource)
    (h : ListHeap User) (r₀ : Nat) (v : List User)
    (hr₀ : r₀ < h.cells.length) :
    h.get (self.get_risk_assessor_alloc h).1 = none
    ∧ (self.get_risk_assessor_alloc h).2.1.get
        (self.get_risk_assessor_alloc h).1 = some []
    ∧ (self.get_risk_assessor_alloc (h.set r₀ v)).1 ≠ r₀
    ∧ (self.get_risk_assessor_alloc (h.set r₀ v)).2.1.get
        (self.get_risk_assessor_alloc (h.set r₀ v)).1 = some [] := by
  refine ⟨?_, ?_, ?_, ?_⟩
  · exact List.getElem?_eq_none (Nat.le_refl _)
  · exact List.getElem?_concat_length h.cells []
  · show (h.cells.set r₀ v).length ≠ r₀
    rw [List.length_set]
    exact (Nat.ne_of_lt hr₀).symm
  · exact List.getElem?_concat_length (h.cells.set r₀ v) []

/-- Witness for C10: a one-cell heap; the call returns the fresh reference
`1`, distinct from the mutated reference `0`, and its contents are `[]`. -/
theorem C10_witness :
    (0 : Nat) < (ListHeap.cells ⟨[[5]]⟩ : List (List Nat)).length
    ∧ ((ListHeap.mk [[5]] : ListHeap Nat).get
        (DummyFindingDataSource.mk.get_risk_assessor_alloc
          (ListHeap.mk [[5]])).1 = none
      ∧ (DummyFindingDataSource.mk.get_risk_assessor_alloc
          (ListHeap.mk [[5]] : ListHeap Nat)).2.1.get
          (DummyFindingDataSource.mk.get_risk_assessor_alloc
            (ListHeap.mk [[5]])).1 = some []
      ∧ (DummyFindingDataSource.mk.get_risk_assessor_alloc
          ((ListHeap.mk [[5]] : ListHeap Nat).set 0 [7])).1 ≠ 0
      ∧ (DummyFindingDataSource.mk.get_risk_assessor_alloc
          ((ListHeap.mk [[5]] : ListHeap Nat).set 0 [7])).2.1.get
          (DummyFindingDataSource.mk.get_risk_assessor_alloc
            ((ListHeap.mk [[5]]).set 0 [7])).1 = some []) :=
  ⟨by decide,
    C10_fresh_empty_list Nat DummyFindingDataSource.mk
      (ListHeap.mk [[5]]) 0 [7] (by decide)⟩

end DummyFDS
